import Mathlib

/-!
Shallow embedding of the ClaudeWorldGen simulation core (grid, terrain
synthesizer, climate model, biome classifier, world pipeline) together with
theorems settling the frozen claims about it.  JavaScript numbers are
modelled as real numbers; the JS helper functions (sign, trunc-remainder,
atan2) are embedded with their JS semantics.  The third-party h3-js
point-to-cell function and the simplex-noise sampler are external libraries
and enter as explicit function parameters.
-/

open scoped Classical

set_option maxRecDepth 8000

noncomputable section

/-- JS Math.sign: 1 for positives, -1 for negatives, 0 at zero. -/
def jsSign (x : ℝ) : ℝ :=
  if 0 < x then 1 else if x < 0 then -1 else 0

/-- JS truncation toward zero, as used by the JS remainder operator. -/
def jsTrunc (x : ℝ) : ℤ :=
  if 0 ≤ x then ⌊x⌋ else ⌈x⌉

/-- JS remainder operator on numbers: x - y * trunc (x / y); the result has
the sign of the dividend. -/
def jsRem (x y : ℝ) : ℝ :=
  x - y * (jsTrunc (x / y) : ℝ)

/-- JS Math.atan2 with its usual quadrant conventions; atan2 0 0 = 0. -/
def jsAtan2 (y x : ℝ) : ℝ :=
  if 0 < x then Real.arctan (y / x)
  else if x < 0 then
    (if 0 ≤ y then Real.arctan (y / x) + Real.pi else Real.arctan (y / x) - Real.pi)
  else
    (if 0 < y then Real.pi / 2 else if y < 0 then -(Real.pi / 2) else 0)

/-- JS remainder on integers (sign of the dividend), for index arithmetic. -/
def jsIntMod (a b : ℤ) : ℤ :=
  if 0 ≤ a then a % b else -((-a) % b)

/-- WorldParameters from src/types.ts; timeOfDay is optional there. -/
structure WorldParameters where
  radius : ℝ
  solarConstant : ℝ
  orbitalTilt : ℝ
  rotationPeriod : ℝ
  orbitalPeriod : ℝ
  seaLevel : ℝ
  atmosphereDensity : ℝ
  gridResolution : ℕ
  timeOfDay : Option ℝ

/-- BiomeType enum from src/types.ts. -/
inductive BiomeType where
  | OCEAN
  | ICE
  | TUNDRA
  | TAIGA
  | TEMPERATE_FOREST
  | TEMPERATE_GRASSLAND
  | DESERT
  | SAVANNA
  | TROPICAL_RAINFOREST
  | TROPICAL_SEASONAL_FOREST
  | ALPINE
  | SUBTROPICAL_DESERT
  deriving DecidableEq, Fintype

/-- GridCell from src/grid/GridSystem.ts (neighbor list unused by the
pipeline, which scans all cells by haversine distance instead). -/
structure GridCell where
  cellId : String
  latitude : ℝ
  longitude : ℝ

/-- CellData from src/types.ts. -/
structure CellData where
  cellId : String
  latitude : ℝ
  longitude : ℝ
  elevation : ℝ
  temperature : ℝ
  precipitation : ℝ
  biome : BiomeType
  isOcean : Bool
  windSpeed : ℝ
  windDirection : ℝ

instance : Inhabited CellData :=
  ⟨⟨"", 0, 0, 0, 0, 0, BiomeType.OCEAN, false, 0, 0⟩⟩

/-- ClimateData from src/types.ts. -/
structure ClimateData where
  temperature : ℝ
  precipitation : ℝ
  humidity : ℝ
  windSpeed : ℝ

/-- HeightMapData from src/types.ts; the Float32Array is a list of reals. -/
structure HeightMapData where
  width : ℤ
  height : ℤ
  data : List ℝ
  min : ℝ
  max : ℝ

/-- BiomeClassifier.classifyBiome from src/biome/BiomeClassifier.ts: the
ordered decision table, first match wins.  The classifier is constructed
with the simulator's (normalized) seaLevel. -/
def classifyBiome (seaLevel temperature precipitation elevation : ℝ) : BiomeType :=
  if elevation < seaLevel then BiomeType.OCEAN
  else if elevation > seaLevel + 4000 then BiomeType.ALPINE
  else if temperature < -15 then BiomeType.ICE
  else if temperature < 0 then BiomeType.TUNDRA
  else if temperature < 10 then
    (if precipitation < 400 then BiomeType.TUNDRA else BiomeType.TAIGA)
  else if temperature < 20 then
    (if precipitation < 250 then BiomeType.TEMPERATE_GRASSLAND
     else if precipitation < 500 then BiomeType.TEMPERATE_GRASSLAND
     else BiomeType.TEMPERATE_FOREST)
  else if temperature < 25 then
    (if precipitation < 200 then BiomeType.SUBTROPICAL_DESERT
     else if precipitation < 500 then BiomeType.TEMPERATE_GRASSLAND
     else if precipitation < 1000 then BiomeType.TEMPERATE_FOREST
     else BiomeType.TROPICAL_SEASONAL_FOREST)
  else if precipitation < 250 then BiomeType.DESERT
  else if precipitation < 500 then BiomeType.SUBTROPICAL_DESERT
  else if precipitation < 1000 then BiomeType.SAVANNA
  else if precipitation < 2000 then BiomeType.TROPICAL_SEASONAL_FOREST
  else BiomeType.TROPICAL_RAINFOREST

/-- NoiseConfig from src/terrain/HeightMapGenerator.ts (all fields optional). -/
structure NoiseConfig where
  seed : Option String
  octaves : Option ℕ
  persistence : Option ℝ
  lacunarity : Option ℝ
  scale : Option ℝ
  redistributionPower : Option ℝ

/-- The fully-defaulted configuration the HeightMapGenerator constructor
builds (Required of NoiseConfig). -/
structure ResolvedNoiseConfig where
  seed : String
  octaves : ℕ
  persistence : ℝ
  lacunarity : ℝ
  scale : ℝ
  redistributionPower : ℝ

/-- 32-bit wrap-around as performed by the JS bitwise operators. -/
def toInt32 (n : ℤ) : ℤ :=
  (n + 2 ^ 31) % 2 ^ 32 - 2 ^ 31

/-- One step of the string hash in HeightMapGenerator.seedToRandom:
hash = ((hash << 5) - hash) + charCode; hash = hash & hash. -/
def jsHashStep (h : ℤ) (c : Char) : ℤ :=
  toInt32 (toInt32 (h * 32) - h + (c.toNat : ℤ))

/-- The accumulated 32-bit string hash of seedToRandom. -/
def jsHash (s : String) : ℤ :=
  s.data.foldl jsHashStep 0

/-- HeightMapGenerator.seedToRandom: Math.abs(hash) / 2147483648. -/
def seedToRandom (s : String) : ℝ :=
  ((jsHash s).natAbs : ℝ) / 2147483648

/-- HeightMapGenerator constructor: apply the defaults.  ambientSeed stands
for the Math.random().toString() value used when no seed is given; the JS
expression config.seed || ambient also rejects the empty (falsy) string. -/
def resolveNoiseConfig (cfg : NoiseConfig) (ambientSeed : String) : ResolvedNoiseConfig :=
  { seed := match cfg.seed with
      | some s => if s = "" then ambientSeed else s
      | none => ambientSeed
    octaves := cfg.octaves.getD 6
    persistence := cfg.persistence.getD 0.5
    lacunarity := cfg.lacunarity.getD 2.0
    scale := cfg.scale.getD 1.0
    redistributionPower := cfg.redistributionPower.getD 2.0 }

/-- HeightMapGenerator.latLngToSphere (radius defaulting to 1). -/
def latLngToSphere (lat lng radius : ℝ) : ℝ × ℝ × ℝ :=
  let phi := (90 - lat) * (Real.pi / 180)
  let theta := (lng + 180) * (Real.pi / 180)
  (radius * Real.sin phi * Real.cos theta,
   radius * Real.sin phi * Real.sin theta,
   radius * Real.cos phi)

/-- Loop state of HeightMapGenerator.fbm. -/
structure FbmState where
  total : ℝ
  frequency : ℝ
  amplitude : ℝ
  maxValue : ℝ

/-- One iteration of the fbm octave loop, in source order: total and
maxValue use the current amplitude, which is then decayed. -/
def fbmStep (noise : ℝ → ℝ → ℝ → ℝ) (cfg : ResolvedNoiseConfig)
    (x y z : ℝ) (st : FbmState) : FbmState :=
  { total := st.total + noise (x * st.frequency) (y * st.frequency) (z * st.frequency) * st.amplitude
    frequency := st.frequency * cfg.lacunarity
    amplitude := st.amplitude * cfg.persistence
    maxValue := st.maxValue + st.amplitude }

/-- HeightMapGenerator.fbm: octave loop then division by the amplitude sum.
The 3D noise function supplied by the simplex-noise library is a parameter. -/
def fbm (noise : ℝ → ℝ → ℝ → ℝ) (cfg : ResolvedNoiseConfig) (x y z : ℝ) : ℝ :=
  let st := (List.range cfg.octaves).foldl (fun st _ => fbmStep noise cfg x y z st)
    ⟨0, cfg.scale, 1, 0⟩
  st.total / st.maxValue

/-- HeightMapGenerator.getElevationAtLatLng: sphere mapping, fbm,
remap from [-1,1] to [0,1], then power-law redistribution (JS Math.pow,
embedded as the real power). -/
def getElevationAtLatLng (noise : ℝ → ℝ → ℝ → ℝ) (cfg : ResolvedNoiseConfig)
    (lat lng radius : ℝ) : ℝ :=
  let p := latLngToSphere lat lng radius
  let value := fbm noise cfg p.1 p.2.1 p.2.2
  let remapped := (value + 1) / 2
  remapped ^ cfg.redistributionPower

/-- HeightMapGenerator.loadFromHeightMap.  The function performs no
validation: it only computes indices and reads the array.  A read outside
the array (mismatched data length) or an index made meaningless by
non-positive dimensions yields undefined in JS; both are modelled as none.
No code path raises an error. -/
def loadFromHeightMap (hm : HeightMapData) (lat lng : ℝ) : Option ℝ :=
  if hm.width ≤ 0 ∨ hm.height ≤ 0 then none
  else
    let x := jsIntMod ⌊(lng + 180) / 360 * (hm.width : ℝ)⌋ hm.width
    let y := jsIntMod ⌊(90 - lat) / 180 * (hm.height : ℝ)⌋ hm.height
    let index := y * hm.width + x
    if 0 ≤ index then hm.data.get? index.toNat else none

/-- Total-valued wrapper over loadFromHeightMap: the JS undefined produced
by an out-of-range read is replaced by a fixed junk real (0).  Both runs of
a deterministic generation see the same value, and no claim depends on it. -/
def loadFromHeightMapValue (hm : HeightMapData) (lat lng : ℝ) : ℝ :=
  (loadFromHeightMap hm lat lng).getD 0

/-- ClimateSimulator.insolationToTemperature: Stefan-Boltzmann with fixed
albedo 0.3 (JS Math.pow embedded as the real power). -/
def insolationToTemperature (insolation : ℝ) : ℝ :=
  let albedo : ℝ := 0.3
  let stefanBoltzmann : ℝ := 5.67e-8
  let effectiveInsolation := insolation * (1 - albedo)
  (effectiveInsolation / (4 * stefanBoltzmann)) ^ (0.25 : ℝ) - 273.15

/-- The JS expression this.params.timeOfDay || 12: undefined and the falsy
value 0 both fall back to noon. -/
def timeOfDayOrNoon (t : Option ℝ) : ℝ :=
  match t with
  | none => 12
  | some v => if v = 0 then 12 else v

/-- ClimateSimulator.calculateTemperature from the climate model: regime
selection on rotationPeriod > 1000, insolation, Stefan-Boltzmann
conversion, lapse-rate adjustment and greenhouse offset, translated
line by line. -/
def calculateTemperature (params : WorldParameters)
    (latitude longitude elevation seasonalDay : ℝ) : ℝ :=
  let latRad := latitude * Real.pi / 180
  let tiltRad := params.orbitalTilt * Real.pi / 180
  let seasonalAngle := seasonalDay / params.orbitalPeriod * (2 * Real.pi)
  let declination := tiltRad * Real.sin seasonalAngle
  let insolation :=
    if 1000 < params.rotationPeriod then
      let angularDistance := |longitude - 0|
      let normalizedDistance := min angularDistance (360 - angularDistance)
      let distRad := normalizedDistance * Real.pi / 180
      let latDistanceFactor := Real.cos distRad * Real.cos latRad
      let ins := params.solarConstant * max 0 latDistanceFactor
      let minAmbientTemp := params.atmosphereDensity * 5
      max ins minAmbientTemp
    else
      let timeOfDay := timeOfDayOrNoon params.timeOfDay
      let hourAngle := (timeOfDay - 12) / 12 * Real.pi
      let solarElevationAngle := Real.arcsin
        (Real.sin latRad * Real.sin declination +
          Real.cos latRad * Real.cos declination * Real.cos hourAngle)
      let ins := params.solarConstant * max 0 (Real.sin solarElevationAngle)
      let rotationDampening := min 1 (params.rotationPeriod / 24)
      let nighttimeTempRetention := params.atmosphereDensity * 0.3 * (1 - rotationDampening)
      if ins = 0 then params.solarConstant * nighttimeTempRetention else ins
  let baseTemp := insolationToTemperature insolation
  let lapseRate : ℝ := 6.5
  let elevationKm := (elevation - params.seaLevel) / 1000
  let tempAdjustment := -lapseRate * elevationKm
  let atmosphericEffect := params.atmosphereDensity * 15
  baseTemp + tempAdjustment + atmosphericEffect

/-- The tidally-locked branch of calculateTemperature as a standalone
formula (insolation from angular distance to the sub-stellar point at
longitude 0, floored by the ambient term, then the shared post-processing). -/
def lockedRegimeTemperature (params : WorldParameters)
    (latitude longitude elevation seasonalDay : ℝ) : ℝ :=
  let latRad := latitude * Real.pi / 180
  let angularDistance := |longitude - 0|
  let normalizedDistance := min angularDistance (360 - angularDistance)
  let distRad := normalizedDistance * Real.pi / 180
  let latDistanceFactor := Real.cos distRad * Real.cos latRad
  let ins := params.solarConstant * max 0 latDistanceFactor
  let minAmbientTemp := params.atmosphereDensity * 5
  let insolation := max ins minAmbientTemp
  insolationToTemperature insolation +
    -(6.5) * ((elevation - params.seaLevel) / 1000) + params.atmosphereDensity * 15

/-- The rotating branch of calculateTemperature as a standalone formula
(declination from the orbital phase, hour angle from time-of-day,
night-time heat retention, then the shared post-processing). -/
def rotatingRegimeTemperature (params : WorldParameters)
    (latitude longitude elevation seasonalDay : ℝ) : ℝ :=
  let latRad := latitude * Real.pi / 180
  let tiltRad := params.orbitalTilt * Real.pi / 180
  let seasonalAngle := seasonalDay / params.orbitalPeriod * (2 * Real.pi)
  let declination := tiltRad * Real.sin seasonalAngle
  let timeOfDay := timeOfDayOrNoon params.timeOfDay
  let hourAngle := (timeOfDay - 12) / 12 * Real.pi
  let solarElevationAngle := Real.arcsin
    (Real.sin latRad * Real.sin declination +
      Real.cos latRad * Real.cos declination * Real.cos hourAngle)
  let ins := params.solarConstant * max 0 (Real.sin solarElevationAngle)
  let rotationDampening := min 1 (params.rotationPeriod / 24)
  let nighttimeTempRetention := params.atmosphereDensity * 0.3 * (1 - rotationDampening)
  let insolation := if ins = 0 then params.solarConstant * nighttimeTempRetention else ins
  insolationToTemperature insolation +
    -(6.5) * ((elevation - params.seaLevel) / 1000) + params.atmosphereDensity * 15

/-- The latitude-banded base rainfall curve of
ClimateSimulator.calculatePrecipitation. -/
def baseRainfall (latitude : ℝ) : ℝ :=
  let absLat := |latitude|
  if absLat < 10 then 2500
  else if absLat < 30 then 1500 - (absLat - 10) * 50
  else if absLat < 60 then 500 + (absLat - 30) * 10
  else 300

/-- The orographic-lift term of calculatePrecipitation. -/
def orographicLift (params : WorldParameters) (elevation : ℝ) : ℝ :=
  max 0 (elevation - params.seaLevel) / 1000 * 200

/-- The temperature-driven moisture term of calculatePrecipitation
(clamped below at 0 over the reference range -10..30). -/
def temperatureMoistureEffect (temperature : ℝ) : ℝ :=
  let maxTemp : ℝ := 30
  let minTemp : ℝ := -10
  max 0 ((temperature - minTemp) / (maxTemp - minTemp)) * 500

/-- The exponentially decaying ocean-proximity bonus of
calculatePrecipitation. -/
def oceanProximityEffect (distanceToOcean : ℝ) : ℝ :=
  Real.exp (-distanceToOcean / 1000) * 500

/-- ClimateSimulator.calculatePrecipitation, translated line by line:
banded base rainfall, orographic lift, temperature moisture term,
exponentially decaying ocean bonus, sum floored at 0. -/
def calculatePrecipitation (params : WorldParameters)
    (latitude elevation temperature distanceToOcean : ℝ) : ℝ :=
  let absLat := |latitude|
  let baseRain :=
    if absLat < 10 then (2500 : ℝ)
    else if absLat < 30 then 1500 - (absLat - 10) * 50
    else if absLat < 60 then 500 + (absLat - 30) * 10
    else 300
  let elevationEffect := max 0 (elevation - params.seaLevel) / 1000
  let orographic := elevationEffect * 200
  let maxTemp : ℝ := 30
  let minTemp : ℝ := -10
  let tempFactor := max 0 ((temperature - minTemp) / (maxTemp - minTemp))
  let tempEffect := tempFactor * 500
  let oceanEffect := Real.exp (-distanceToOcean / 1000) * 500
  let totalPrecipitation := baseRain + orographic + tempEffect + oceanEffect
  max 0 totalPrecipitation

/-- ClimateSimulator.calculateHumidity. -/
def calculateHumidity (temperature precipitation : ℝ) : ℝ :=
  let maxHumidity : ℝ := 100
  let tempFactor := max 0 (min 1 ((temperature + 10) / 40))
  let precipFactor := min 1 (precipitation / 2000)
  maxHumidity * tempFactor * precipFactor

/-- ClimateSimulator.calculateWindSpeed (the first-pass scalar wind, unused
by the pipeline records but part of ClimateData). -/
def calculateWindSpeedScalar (params : WorldParameters) (latitude elevation : ℝ) : ℝ :=
  let absLat := |latitude|
  let baseWind :=
    if absLat < 30 then 3 + absLat * 0.1
    else if absLat < 60 then 6 + (absLat - 30) * 0.2
    else 12 + (absLat - 60) * 0.3
  let elevationEffect := max 0 (elevation - params.seaLevel) / 1000
  baseWind + elevationEffect * 2

/-- ClimateSimulator.calculateClimate. -/
def calculateClimate (params : WorldParameters)
    (latitude longitude elevation distanceToOcean seasonalDay : ℝ) : ClimateData :=
  let temperature := calculateTemperature params latitude longitude elevation seasonalDay
  let precipitation := calculatePrecipitation params latitude elevation temperature distanceToOcean
  { temperature := temperature
    precipitation := precipitation
    humidity := calculateHumidity temperature precipitation
    windSpeed := calculateWindSpeedScalar params latitude elevation }

/-- WorldSimulator.haversineDistance: great-circle distance in km on a
sphere of the configured radius (atan2 via the JS semantics). -/
def haversineDistance (params : WorldParameters) (lat1 lon1 lat2 lon2 : ℝ) : ℝ :=
  let R := params.radius / 1000
  let dLat := (lat2 - lat1) * Real.pi / 180
  let dLon := (lon2 - lon1) * Real.pi / 180
  let a := Real.sin (dLat / 2) * Real.sin (dLat / 2) +
    Real.cos (lat1 * Real.pi / 180) * Real.cos (lat2 * Real.pi / 180) *
      Real.sin (dLon / 2) * Real.sin (dLon / 2)
  let c := 2 * jsAtan2 (Real.sqrt a) (Real.sqrt (1 - a))
  R * c

/-- JS Map.set on the insertion-ordered association list modelling
this.worldCells: overwrite in place if the key exists, else append. -/
def worldSet (world : List CellData) (c : CellData) : List CellData :=
  if world.any (fun e => e.cellId == c.cellId) then
    world.map (fun e => if e.cellId == c.cellId then c else e)
  else world ++ [c]

/-- JS Map.get on the modelled this.worldCells. -/
def worldGet (world : List CellData) (cellId : String) : Option CellData :=
  world.find? (fun e => e.cellId == cellId)

/-- WorldSimulator.estimateDistanceToOcean, translated line by line: look
the queried cell up in this.worldCells (1000 if absent), then take the
minimum haversine distance to every cell within checkRadius * 100 km whose
already-stored record is flagged ocean; Infinity (none) falls back to 1000. -/
def estimateDistanceToOcean (params : WorldParameters) (world : List CellData)
    (cellId : String) (allCells : List GridCell) : ℝ :=
  match worldGet world cellId with
  | none => 1000
  | some cell =>
    let best := allCells.foldl (fun (acc : Option ℝ) otherCell =>
      let distance := haversineDistance params cell.latitude cell.longitude
        otherCell.latitude otherCell.longitude
      if distance < 5 * 100 then
        match worldGet world otherCell.cellId with
        | some cellData =>
          if cellData.isOcean then
            (match acc with
             | none => some distance
             | some m => some (min m distance))
          else acc
        | none => acc
      else acc) none
    match best with
    | none => 1000
    | some m => m

/-- The per-cell body of the first pass of WorldSimulator.generateWorld:
elevation from the active sampling path, ocean flag, distance-to-ocean,
climate (with elevation scaled to meters) and biome, wind fields zeroed. -/
def buildCellRecord (params : WorldParameters) (elevAt : ℝ → ℝ → ℝ)
    (allCells : List GridCell) (world : List CellData) (cell : GridCell) : CellData :=
  let elevation := elevAt cell.latitude cell.longitude
  let distanceToOcean :=
    if elevation < params.seaLevel then 0
    else estimateDistanceToOcean params world cell.cellId allCells
  let climate := calculateClimate params cell.latitude cell.longitude
    (elevation * 10000) distanceToOcean 0
  let biome := classifyBiome params.seaLevel climate.temperature climate.precipitation
    (elevation * 10000)
  { cellId := cell.cellId
    latitude := cell.latitude
    longitude := cell.longitude
    elevation := elevation
    temperature := climate.temperature
    precipitation := climate.precipitation
    biome := biome
    isOcean := decide (elevation < params.seaLevel)
    windSpeed := 0
    windDirection := 0 }

/-- First pass of WorldSimulator.generateWorld over the grid cells, storing
each record into the (initially empty) cell map as it is produced. -/
def firstPass (params : WorldParameters) (elevAt : ℝ → ℝ → ℝ)
    (cells : List GridCell) : List CellData :=
  cells.foldl (fun world cell => worldSet world (buildCellRecord params elevAt cells world cell)) []

/-- WorldSimulator.calculateWind, translated line by line: neighbors within
(0, 500) km capped at 8, averaged sign-weighted temperature gradient,
sequential Coriolis update when rotationPeriod < 1000, latitude-banded base
easterlies/westerlies, elevation factor, clamp to [1, 50] and direction
(atan2(windEW, windNS) in degrees + 360) mod 360. -/
def calculateWind (params : WorldParameters) (world : List CellData)
    (latitude longitude temperature elevation : ℝ) (allCells : List GridCell) : ℝ × ℝ :=
  let neighbors := (allCells.filter (fun other =>
    let dist := haversineDistance params latitude longitude other.latitude other.longitude
    decide (0 < dist ∧ dist < 500))).take 8
  if neighbors.length = 0 then (5, 90)
  else
    let g := neighbors.foldl (fun (acc : ℝ × ℝ) neighbor =>
      match worldGet world neighbor.cellId with
      | none => acc
      | some neighborData =>
        let tempDiff := temperature - neighborData.temperature
        let latDiff := latitude - neighbor.latitude
        let lngDiff := longitude - neighbor.longitude
        (acc.1 + tempDiff * jsSign latDiff, acc.2 + tempDiff * jsSign lngDiff)) (0, 0)
    let gradientNS := g.1 / (neighbors.length : ℝ)
    let gradientEW := g.2 / (neighbors.length : ℝ)
    let omega := 2 * Real.pi / params.rotationPeriod
    let latRad := latitude * Real.pi / 180
    let coriolisParameter := 2 * omega * Real.sin latRad
    let coriolisStrength := |coriolisParameter| * 100
    let windEW1 :=
      if params.rotationPeriod < 1000 then
        gradientEW + coriolisStrength * jsSign latitude * gradientNS
      else gradientEW
    let windNS1 :=
      if params.rotationPeriod < 1000 then
        gradientNS - coriolisStrength * jsSign latitude * windEW1 * 0.5
      else gradientNS
    let absLat := |latitude|
    let baseWindEW : ℝ := if absLat < 30 then -3 else if absLat < 60 then 5 else -2
    let windEW2 := windEW1 + baseWindEW
    let elevationFactor := 1 + max 0 ((elevation - params.seaLevel) / 10000) * 0.5
    let windSpeed := Real.sqrt (windEW2 * windEW2 + windNS1 * windNS1) * elevationFactor
    let windDirection := jsRem (jsAtan2 windEW2 windNS1 * 180 / Real.pi + 360) 360
    (max 1 (min 50 windSpeed), windDirection)

/-- One iteration of the second (wind) pass of
WorldSimulator.generateWorld: if the grid cell's record exists, compute
wind from the current map state and update the record's wind fields. -/
def secondPassStep (params : WorldParameters) (allCells : List GridCell)
    (world : List CellData) (cell : GridCell) : List CellData :=
  match worldGet world cell.cellId with
  | none => world
  | some cellData =>
    let w := calculateWind params world cell.latitude cell.longitude
      cellData.temperature cellData.elevation allCells
    world.map (fun e =>
      if e.cellId == cell.cellId then
        { e with windSpeed := w.1, windDirection := w.2 }
      else e)

/-- Second pass of WorldSimulator.generateWorld over the grid cells. -/
def secondPass (params : WorldParameters) (allCells : List GridCell)
    (world0 : List CellData) : List CellData :=
  allCells.foldl (secondPassStep params allCells) world0

/-- WorldSimulator.generateWorld: first pass then second pass over the grid
cells delivered by the grid system. -/
def generateWorldCells (params : WorldParameters) (elevAt : ℝ → ℝ → ℝ)
    (cells : List GridCell) : List CellData :=
  secondPass params cells (firstPass params elevAt cells)

/-- A whole generation request: the GridSystem constructor is the only
code that can fail (H3 resolution out of 0..15); generateWorld itself has
no failure path.  The grid cell list delivered by h3-js is a parameter. -/
def runGeneration (resolution : ℕ) (params : WorldParameters)
    (elevAt : ℝ → ℝ → ℝ) (cells : List GridCell) : Except String (List CellData) :=
  if resolution > 15 then Except.error "H3 resolution must be between 0 and 15"
  else Except.ok (generateWorldCells params elevAt cells)

/-- WorldStatistics as returned by WorldSimulator.getStatistics. -/
structure WorldStatistics where
  totalCells : ℕ
  landCells : ℕ
  oceanCells : ℕ
  biomeDistribution : BiomeType → ℕ
  averageTemperature : ℝ
  averagePrecipitation : ℝ

/-- Loop accumulator of getStatistics. -/
structure StatsAcc where
  biomeDistribution : BiomeType → ℕ
  totalTemp : ℝ
  totalPrecip : ℝ
  landCells : ℕ
  oceanCells : ℕ

/-- One iteration of the getStatistics loop. -/
def statsStep (acc : StatsAcc) (cell : CellData) : StatsAcc :=
  { biomeDistribution := Function.update acc.biomeDistribution cell.biome
      (acc.biomeDistribution cell.biome + 1)
    totalTemp := acc.totalTemp + cell.temperature
    totalPrecip := acc.totalPrecip + cell.precipitation
    landCells := if cell.isOcean then acc.landCells else acc.landCells + 1
    oceanCells := if cell.isOcean then acc.oceanCells + 1 else acc.oceanCells }

/-- WorldSimulator.getStatistics over the cell collection. -/
def getStatistics (cells : List CellData) : WorldStatistics :=
  let acc := cells.foldl statsStep ⟨fun _ => 0, 0, 0, 0, 0⟩
  { totalCells := cells.length
    landCells := acc.landCells
    oceanCells := acc.oceanCells
    biomeDistribution := acc.biomeDistribution
    averageTemperature := acc.totalTemp / (cells.length : ℝ)
    averagePrecipitation := acc.totalPrecip / (cells.length : ℝ) }

/-- Modelled from the spec: the distance-to-ocean the specification claims
for a land cell, namely the minimum haversine distance from the cell to a
cell flagged ocean by the already-computed first-pass results among all
cells within the fixed 500 km lookup radius, with the 1000 fallback only
when no such ocean cell is in range. -/
def specDistanceToOcean (params : WorldParameters) (world : List CellData)
    (cell : GridCell) (allCells : List GridCell) : ℝ :=
  let best := allCells.foldl (fun (acc : Option ℝ) otherCell =>
    let distance := haversineDistance params cell.latitude cell.longitude
      otherCell.latitude otherCell.longitude
    if distance < 5 * 100 then
      match worldGet world otherCell.cellId with
      | some cellData =>
        if cellData.isOcean then
          (match acc with
           | none => some distance
           | some m => some (min m distance))
        else acc
      | none => acc
    else acc) none
  match best with
  | none => 1000
  | some m => m

/-- Modelled from the spec: H3 resolution 4 (the simulator default) has
288122 distinct cells, per the resolution table documented with the
repository.  h3-js itself is an external library; its latLngToCell is an
unknown function into this cell set. -/
def h3Res4CellCount : ℕ := 288122

/-- GridSystem.initializeCells lattice: latSteps for a resolution. -/
def latSteps (resolution : ℕ) : ℕ := max 10 (resolution * 20)

/-- GridSystem.initializeCells lattice: lngSteps for a resolution. -/
def lngSteps (resolution : ℕ) : ℕ := max 20 (resolution * 40)

/-- GridSystem.initializeCells sample latitude for latIdx. -/
def sampleLat (resolution latIdx : ℕ) : ℝ :=
  90 - (latIdx : ℝ) / (latSteps resolution : ℝ) * 180

/-- GridSystem.initializeCells sample longitude for lngIdx. -/
def sampleLng (resolution lngIdx : ℕ) : ℝ :=
  -180 + (lngIdx : ℝ) / (lngSteps resolution : ℝ) * 360

/-- The set of cell identifiers produced by GridSystem.initializeCells: the
image of the sampling lattice under the h3 point-to-cell function (the JS
code collects them into a Set). -/
def builtCellIds (resolution : ℕ) (latLngToCell : ℝ → ℝ → Fin h3Res4CellCount) :
    Finset (Fin h3Res4CellCount) :=
  (Finset.range (latSteps resolution) ×ˢ Finset.range (lngSteps resolution)).image
    (fun p => latLngToCell (sampleLat resolution p.1) (sampleLng resolution p.2))

/-- Modelled from the spec: any function implementing the h3 resolution-4
point-to-cell interface reaches every one of the 288122 cells from some
legal coordinate (H3 cells partition the sphere and every cell center maps
back to its cell). -/
def H3Covers (latLngToCell : ℝ → ℝ → Fin h3Res4CellCount) : Prop :=
  ∀ c, ∃ lat lng, -90 ≤ lat ∧ lat ≤ 90 ∧ -180 ≤ lng ∧ lng < 180 ∧ latLngToCell lat lng = c

/-- Claim C3 as stated, over every function implementing the h3
resolution-4 interface (h3-js being one such): every legal coordinate's
cell id is among the ids produced at grid build time. -/
def gridCoverageClaim : Prop :=
  ∀ latLngToCell, H3Covers latLngToCell →
    ∀ lat lng, -90 ≤ lat → lat ≤ 90 → -180 ≤ lng → lng < 180 →
      latLngToCell lat lng ∈ builtCellIds 4 latLngToCell

/-- A whole run of the simulator as configured (WorldSimulator constructor
plus generateWorld): the noise library function enters as a parameter
(createNoise3D applied to the seeded random source), the ambient seed
stands for Math.random().toString(), and the elevation path is the
external heightmap when present, the noise synthesizer otherwise. -/
def runWorldGeneration (lib : ℝ → ℝ → ℝ → ℝ → ℝ) (cfg : NoiseConfig)
    (ambientSeed : String) (params : WorldParameters)
    (externalHeightMap : Option HeightMapData) (cells : List GridCell) : List CellData :=
  let resolved := resolveNoiseConfig cfg ambientSeed
  let noise := lib (seedToRandom resolved.seed)
  let elevAt : ℝ → ℝ → ℝ :=
    match externalHeightMap with
    | some hm => fun lat lng => loadFromHeightMapValue hm lat lng
    | none => fun lat lng => getElevationAtLatLng noise resolved lat lng 1
  generateWorldCells params elevAt cells

/-- The default Earth-like parameter set built by
WorldSimulator.initializeParameters with an empty overrides object. -/
def earthParameters : WorldParameters :=
  { radius := 6371000
    solarConstant := 1361
    orbitalTilt := 23.5
    rotationPeriod := 24
    orbitalPeriod := 365
    seaLevel := 0.5
    atmosphereDensity := 1
    gridResolution := 4
    timeOfDay := some 12 }

lemma mem_worldSet {w : List CellData} {r c : CellData} (h : c ∈ worldSet w r) :
    c ∈ w ∨ c = r := by
  unfold worldSet at h
  split at h
  · rcases List.mem_map.1 h with ⟨e, he, hec⟩
    by_cases hid : e.cellId == r.cellId
    · right
      rw [if_pos hid] at hec
      exact hec.symm
    · left
      rw [if_neg hid] at hec
      exact hec ▸ he
  · rcases List.mem_append.1 h with h1 | h1
    · exact Or.inl h1
    · exact Or.inr (List.mem_singleton.1 h1)

lemma mem_foldl_worldSet (F : List CellData → GridCell → CellData) :
    ∀ (l : List GridCell) (w : List CellData) (c : CellData),
      c ∈ l.foldl (fun w g => worldSet w (F w g)) w →
      c ∈ w ∨ ∃ w' g, g ∈ l ∧ c = F w' g := by
  intro l
  induction l with
  | nil => intro w c h; exact Or.inl h
  | cons g l ih =>
    intro w c h
    rw [List.foldl_cons] at h
    rcases ih _ _ h with hw | ⟨w', g', hg', hc⟩
    · rcases mem_worldSet hw with h1 | h1
      · exact Or.inl h1
      · exact Or.inr ⟨w, g, List.mem_cons_self g l, h1⟩
    · exact Or.inr ⟨w', g', List.mem_cons_of_mem g hg', hc⟩

lemma mem_firstPass {params : WorldParameters} {elevAt : ℝ → ℝ → ℝ}
    {cells : List GridCell} {c : CellData} (h : c ∈ firstPass params elevAt cells) :
    ∃ w g, g ∈ cells ∧ c = buildCellRecord params elevAt cells w g := by
  unfold firstPass at h
  rcases mem_foldl_worldSet _ _ _ _ h with h0 | h1
  · exact absurd h0 (List.not_mem_nil c)
  · exact h1

/-- The fields of a cell record that the second (wind) pass leaves alone. -/
def SameCore (c c' : CellData) : Prop :=
  c.cellId = c'.cellId ∧ c.latitude = c'.latitude ∧ c.longitude = c'.longitude ∧
    c.elevation = c'.elevation ∧ c.temperature = c'.temperature ∧
    c.precipitation = c'.precipitation ∧ c.biome = c'.biome ∧ c.isOcean = c'.isOcean

lemma sameCore_refl (c : CellData) : SameCore c c :=
  ⟨rfl, rfl, rfl, rfl, rfl, rfl, rfl, rfl⟩

lemma sameCore_trans {a b c : CellData} (h1 : SameCore a b) (h2 : SameCore b c) :
    SameCore a c := by
  obtain ⟨x1, x2, x3, x4, x5, x6, x7, x8⟩ := h1
  obtain ⟨y1, y2, y3, y4, y5, y6, y7, y8⟩ := h2
  exact ⟨x1.trans y1, x2.trans y2, x3.trans y3, x4.trans y4, x5.trans y5,
    x6.trans y6, x7.trans y7, x8.trans y8⟩

lemma mem_secondPassStep {params : WorldParameters} {allCells : List GridCell}
    {w : List CellData} {g : GridCell} {c : CellData}
    (h : c ∈ secondPassStep params allCells w g) : ∃ c' ∈ w, SameCore c c' := by
  unfold secondPassStep at h
  revert h
  split
  · intro h
    exact ⟨c, h, sameCore_refl c⟩
  · intro h
    rcases List.mem_map.1 h with ⟨e, he, hec⟩
    refine ⟨e, he, ?_⟩
    by_cases hid : e.cellId == g.cellId
    · rw [if_pos hid] at hec
      subst hec
      exact ⟨rfl, rfl, rfl, rfl, rfl, rfl, rfl, rfl⟩
    · rw [if_neg hid] at hec
      subst hec
      exact sameCore_refl e

lemma mem_foldl_secondPassStep {params : WorldParameters} {allCells : List GridCell} :
    ∀ (l : List GridCell) (w0 : List CellData) (c : CellData),
      c ∈ l.foldl (secondPassStep params allCells) w0 → ∃ c' ∈ w0, SameCore c c' := by
  intro l
  induction l with
  | nil => intro w0 c h; exact ⟨c, h, sameCore_refl c⟩
  | cons g l ih =>
    intro w0 c h
    rw [List.foldl_cons] at h
    rcases ih _ _ h with ⟨c', hc', hcore⟩
    rcases mem_secondPassStep hc' with ⟨c'', hc'', hcore2⟩
    exact ⟨c'', hc'', sameCore_trans hcore hcore2⟩

lemma mem_secondPass {params : WorldParameters} {cells : List GridCell}
    {w0 : List CellData} {c : CellData} (h : c ∈ secondPass params cells w0) :
    ∃ c' ∈ w0, SameCore c c' :=
  mem_foldl_secondPassStep cells w0 c h

lemma mem_generateWorldCells {params : WorldParameters} {elevAt : ℝ → ℝ → ℝ}
    {cells : List GridCell} {c : CellData} (h : c ∈ generateWorldCells params elevAt cells) :
    ∃ c' w g, g ∈ cells ∧ c' = buildCellRecord params elevAt cells w g ∧ SameCore c c' := by
  unfold generateWorldCells at h
  rcases mem_secondPass h with ⟨c', hc', hcore⟩
  rcases mem_firstPass hc' with ⟨w, g, hg, hrec⟩
  exact ⟨c', w, g, hg, hrec, hcore⟩

lemma baseRainfall_ge (lat : ℝ) : 300 ≤ baseRainfall lat := by
  unfold baseRainfall
  have habs : 0 ≤ |lat| := abs_nonneg lat
  dsimp only
  split_ifs with h1 h2 h3
  · norm_num
  · push_neg at h1
    nlinarith
  · push_neg at h1 h2
    nlinarith
  · norm_num

lemma orographicLift_nonneg (params : WorldParameters) (elev : ℝ) :
    0 ≤ orographicLift params elev := by
  unfold orographicLift
  positivity

lemma temperatureMoistureEffect_nonneg (t : ℝ) : 0 ≤ temperatureMoistureEffect t := by
  unfold temperatureMoistureEffect
  positivity

lemma oceanProximityEffect_pos (d : ℝ) : 0 < oceanProximityEffect d := by
  unfold oceanProximityEffect
  positivity

lemma calculatePrecipitation_eq (params : WorldParameters) (lat elev temp d : ℝ) :
    calculatePrecipitation params lat elev temp d =
      max 0 (baseRainfall lat + orographicLift params elev +
        temperatureMoistureEffect temp + oceanProximityEffect d) := rfl

lemma calculatePrecipitation_formula_sum (params : WorldParameters) (lat elev temp d : ℝ) :
    calculatePrecipitation params lat elev temp d =
      baseRainfall lat + orographicLift params elev +
        temperatureMoistureEffect temp + oceanProximityEffect d := by
  rw [calculatePrecipitation_eq]
  apply max_eq_right
  have h1 := baseRainfall_ge lat
  have h2 := orographicLift_nonneg params elev
  have h3 := temperatureMoistureEffect_nonneg temp
  have h4 := oceanProximityEffect_pos d
  linarith

lemma calculatePrecipitation_nonneg (params : WorldParameters) (lat elev temp d : ℝ) :
    0 ≤ calculatePrecipitation params lat elev temp d := by
  rw [calculatePrecipitation_eq]
  exact le_max_left 0 _

lemma buildCellRecord_precipitation (params : WorldParameters) (elevAt : ℝ → ℝ → ℝ)
    (allCells : List GridCell) (world : List CellData) (g : GridCell) :
    0 ≤ (buildCellRecord params elevAt allCells world g).precipitation :=
  calculatePrecipitation_nonneg params _ _ _ _

/-- C8: for every latitude, elevation, temperature and nonnegative
distance-to-ocean, calculatePrecipitation returns exactly the
latitude-banded base rainfall plus orographic lift plus the clamped
temperature moisture term plus the ocean bonus exp(-d/1000)*500, which is
nonnegative (the floor at 0 never engages because the base curve is at
least 300); consequently every cell produced by generateWorld has
nonnegative precipitation. -/
theorem c8_precipitation_formula :
    (∀ (params : WorldParameters) (lat elev temp d : ℝ), 0 ≤ d →
      calculatePrecipitation params lat elev temp d =
        baseRainfall lat + orographicLift params elev +
          temperatureMoistureEffect temp + oceanProximityEffect d ∧
      0 ≤ calculatePrecipitation params lat elev temp d) ∧
    ∀ (params : WorldParameters) (elevAt : ℝ → ℝ → ℝ) (cells : List GridCell)
      (c : CellData), c ∈ generateWorldCells params elevAt cells → 0 ≤ c.precipitation := by
  constructor
  · intro params lat elev temp d _
    exact ⟨calculatePrecipitation_formula_sum params lat elev temp d,
      calculatePrecipitation_nonneg params lat elev temp d⟩
  · intro params elevAt cells c hc
    rcases mem_generateWorldCells hc with ⟨c', w, g, _, hrec, hcore⟩
    have hp : c.precipitation = c'.precipitation := hcore.2.2.2.2.2.1
    rw [hp, hrec]
    exact buildCellRecord_precipitation params elevAt cells w g

lemma jsAtan2_mem (y x : ℝ) : -Real.pi < jsAtan2 y x ∧ jsAtan2 y x ≤ Real.pi := by
  have hpi : 0 < Real.pi := Real.pi_pos
  have ha1 : ∀ z : ℝ, Real.arctan z < Real.pi / 2 := Real.arctan_lt_pi_div_two
  have ha2 : ∀ z : ℝ, -(Real.pi / 2) < Real.arctan z := Real.neg_pi_div_two_lt_arctan
  unfold jsAtan2
  split_ifs with hx hx2 hy hy1 hy2
  · exact ⟨by linarith [ha2 (y / x)], by linarith [ha1 (y / x)]⟩
  · have hyx : y / x ≤ 0 := div_nonpos_of_nonneg_of_nonpos hy (le_of_lt hx2)
    have harc : Real.arctan (y / x) ≤ 0 := by
      have := Real.arctan_strictMono.monotone hyx
      rwa [Real.arctan_zero] at this
    exact ⟨by linarith [ha2 (y / x)], by linarith⟩
  · have hyx : 0 < y / x := div_pos_of_neg_of_neg (lt_of_not_le hy) hx2
    have harc : 0 < Real.arctan (y / x) := by
      have := Real.arctan_strictMono hyx
      rwa [Real.arctan_zero] at this
    exact ⟨by linarith, by linarith [ha1 (y / x)]⟩
  · exact ⟨by linarith, by linarith⟩
  · exact ⟨by linarith, by linarith⟩
  · exact ⟨by linarith, by linarith⟩

lemma jsRem_bound {d : ℝ} (h1 : 180 < d) (h2 : d ≤ 540) :
    0 ≤ jsRem d 360 ∧ jsRem d 360 < 360 := by
  unfold jsRem jsTrunc
  have hd : 0 ≤ d / 360 := by positivity
  rw [if_pos hd]
  by_cases h : d < 360
  · have hf : ⌊d / 360⌋ = 0 := by
      rw [Int.floor_eq_zero_iff]
      constructor
      · exact hd
      · rw [div_lt_one (by norm_num : (0:ℝ) < 360)]
        exact h
    rw [hf]
    push_cast
    constructor <;> linarith
  · push_neg at h
    have hf : ⌊d / 360⌋ = 1 := by
      rw [Int.floor_eq_iff]
      constructor
      · push_cast
        rw [le_div_iff₀ (by norm_num : (0:ℝ) < 360)]
        linarith
      · push_cast
        rw [div_lt_iff₀ (by norm_num : (0:ℝ) < 360)]
        linarith
    rw [hf]
    push_cast
    constructor <;> linarith

lemma windDirection_bound (ew ns : ℝ) :
    0 ≤ jsRem (jsAtan2 ew ns * 180 / Real.pi + 360) 360 ∧
      jsRem (jsAtan2 ew ns * 180 / Real.pi + 360) 360 < 360 := by
  have hpi : 0 < Real.pi := Real.pi_pos
  obtain ⟨hl, hu⟩ := jsAtan2_mem ew ns
  have hdeg1 : -180 < jsAtan2 ew ns * 180 / Real.pi := by
    rw [lt_div_iff hpi]
    nlinarith
  have hdeg2 : jsAtan2 ew ns * 180 / Real.pi ≤ 180 := by
    rw [div_le_iff hpi]
    nlinarith
  exact jsRem_bound (by linarith) (by linarith)

lemma calculateWind_bounds (params : WorldParameters) (world : List CellData)
    (lat lng temp elev : ℝ) (allCells : List GridCell) :
    1 ≤ (calculateWind params world lat lng temp elev allCells).1 ∧
      (calculateWind params world lat lng temp elev allCells).1 ≤ 50 ∧
      0 ≤ (calculateWind params world lat lng temp elev allCells).2 ∧
      (calculateWind params world lat lng temp elev allCells).2 < 360 := by
  unfold calculateWind
  dsimp only
  split
  · norm_num
  · exact ⟨le_max_left 1 _, max_le (by norm_num) (min_le_left 50 _),
      (windDirection_bound _ _).1, (windDirection_bound _ _).2⟩

/-- Wind fields inside the documented ranges. -/
def WindOK (c : CellData) : Prop :=
  1 ≤ c.windSpeed ∧ c.windSpeed ≤ 50 ∧ 0 ≤ c.windDirection ∧ c.windDirection < 360

lemma windOK_foldl {params : WorldParameters} {allCells : List GridCell} :
    ∀ (l : List GridCell) (w : List CellData),
      (∀ c ∈ w, WindOK c ∨ c.cellId ∈ l.map GridCell.cellId) →
      ∀ c ∈ l.foldl (secondPassStep params allCells) w, WindOK c := by
  intro l
  induction l with
  | nil =>
    intro w hw c hc
    rcases hw c hc with h | h
    · exact h
    · simp at h
  | cons g l ih =>
    intro w hw c hc
    rw [List.foldl_cons] at hc
    refine ih _ ?_ c hc
    intro c' hc'
    unfold secondPassStep at hc'
    revert hc'
    split
    next hfind =>
      intro hc'
      rcases hw c' hc' with h | h
      · exact Or.inl h
      · rw [List.map_cons, List.mem_cons] at h
        rcases h with h | h
        · exfalso
          have hnone := List.find?_eq_none.1 hfind c' hc'
          rw [h] at hnone
          simp at hnone
        · exact Or.inr h
    next cd hfind =>
      intro hc'
      rcases List.mem_map.1 hc' with ⟨e, he, hee⟩
      by_cases hid : e.cellId == g.cellId
      · rw [if_pos hid] at hee
        subst hee
        exact Or.inl (calculateWind_bounds params w g.latitude g.longitude
          cd.temperature cd.elevation allCells)
      · rw [if_neg hid] at hee
        subst hee
        rcases hw e he with h | h
        · exact Or.inl h
        · rw [List.map_cons, List.mem_cons] at h
          rcases h with h | h
          · exact absurd (by rw [h]; simp : e.cellId == g.cellId) hid
          · exact Or.inr h

/-- C9: after generateWorld completes both passes, every cell's wind speed
lies in [1, 50] and its wind direction in [0, 360), including cells that
receive the default wind (5 m/s, 90 degrees) for lack of any neighbor
within the 500 km search radius. -/
theorem c9_wind_bounds (params : WorldParameters) (elevAt : ℝ → ℝ → ℝ)
    (cells : List GridCell) (c : CellData)
    (hc : c ∈ generateWorldCells params elevAt cells) :
    1 ≤ c.windSpeed ∧ c.windSpeed ≤ 50 ∧ 0 ≤ c.windDirection ∧ c.windDirection < 360 := by
  refine windOK_foldl cells (firstPass params elevAt cells) ?_ c hc
  intro c' hc'
  rcases mem_firstPass hc' with ⟨w, g, hg, hrec⟩
  right
  rw [hrec]
  exact List.mem_map.2 ⟨g, hg, rfl⟩

lemma statsAcc_fold (l : List CellData) : ∀ acc : StatsAcc,
    (l.foldl statsStep acc).landCells + (l.foldl statsStep acc).oceanCells
        = acc.landCells + acc.oceanCells + l.length ∧
      (∑ b : BiomeType, (l.foldl statsStep acc).biomeDistribution b)
        = (∑ b : BiomeType, acc.biomeDistribution b) + l.length ∧
      (l.foldl statsStep acc).totalTemp = acc.totalTemp + (l.map CellData.temperature).sum ∧
      (l.foldl statsStep acc).totalPrecip = acc.totalPrecip + (l.map CellData.precipitation).sum := by
  induction l with
  | nil => intro acc; simp
  | cons c l ih =>
    intro acc
    rw [List.foldl_cons]
    obtain ⟨h1, h2, h3, h4⟩ := ih (statsStep acc c)
    refine ⟨?_, ?_, ?_, ?_⟩
    · rw [h1]
      unfold statsStep
      dsimp only
      cases hoc : c.isOcean <;> simp [List.length_cons] <;> omega
    · rw [h2]
      unfold statsStep
      dsimp only
      have hupd : (∑ b : BiomeType,
          Function.update acc.biomeDistribution c.biome (acc.biomeDistribution c.biome + 1) b)
          = (∑ b : BiomeType, acc.biomeDistribution b) + 1 := by
        rw [Finset.sum_update_of_mem (Finset.mem_univ c.biome)]
        rw [← Finset.add_sum_erase Finset.univ acc.biomeDistribution (Finset.mem_univ c.biome)]
        rw [Finset.erase_eq]
        ring
      rw [hupd, List.length_cons]
      ring
    · rw [h3]
      unfold statsStep
      dsimp only
      rw [List.map_cons, List.sum_cons]
      ring
    · rw [h4]
      unfold statsStep
      dsimp only
      rw [List.map_cons, List.sum_cons]
      ring

lemma getStatistics_spec (l : List CellData) :
    (getStatistics l).landCells + (getStatistics l).oceanCells = (getStatistics l).totalCells ∧
      (getStatistics l).totalCells = l.length ∧
      (∑ b : BiomeType, (getStatistics l).biomeDistribution b) = (getStatistics l).totalCells ∧
      (getStatistics l).averageTemperature = (l.map CellData.temperature).sum / (l.length : ℝ) ∧
      (getStatistics l).averagePrecipitation
        = (l.map CellData.precipitation).sum / (l.length : ℝ) := by
  obtain ⟨h1, h2, h3, h4⟩ := statsAcc_fold l ⟨fun _ => 0, 0, 0, 0, 0⟩
  unfold getStatistics
  dsimp only
  refine ⟨?_, rfl, ?_, ?_, ?_⟩
  · rw [h1]
    simp
  · rw [h2]
    simp
  · rw [h3]
    norm_num
  · rw [h4]
    norm_num

/-- C10: getStatistics over a generated world is a consistent partition of
the cells: land plus ocean counts equal the total, the total is the number
of records, the biome histogram sums to the total, and the averages are the
arithmetic means of temperature and precipitation over the records (the
world being nonempty, as any nonempty grid produces). -/
theorem c10_statistics_consistent (params : WorldParameters) (elevAt : ℝ → ℝ → ℝ)
    (cells : List GridCell) :
    (getStatistics (generateWorldCells params elevAt cells)).landCells +
        (getStatistics (generateWorldCells params elevAt cells)).oceanCells
      = (getStatistics (generateWorldCells params elevAt cells)).totalCells ∧
    (getStatistics (generateWorldCells params elevAt cells)).totalCells
      = (generateWorldCells params elevAt cells).length ∧
    (∑ b : BiomeType, (getStatistics (generateWorldCells params elevAt cells)).biomeDistribution b)
      = (getStatistics (generateWorldCells params elevAt cells)).totalCells ∧
    (generateWorldCells params elevAt cells ≠ [] →
      (getStatistics (generateWorldCells params elevAt cells)).averageTemperature
        = ((generateWorldCells params elevAt cells).map CellData.temperature).sum /
            ((generateWorldCells params elevAt cells).length : ℝ) ∧
      (getStatistics (generateWorldCells params elevAt cells)).averagePrecipitation
        = ((generateWorldCells params elevAt cells).map CellData.precipitation).sum /
            ((generateWorldCells params elevAt cells).length : ℝ)) := by
  obtain ⟨h1, h2, h3, h4, h5⟩ := getStatistics_spec (generateWorldCells params elevAt cells)
  exact ⟨h1, h2, h3, fun _ => ⟨h4, h5⟩⟩

/-- The fbm octave loop after n iterations. -/
def fbmLoop (noise : ℝ → ℝ → ℝ → ℝ) (cfg : ResolvedNoiseConfig)
    (x y z : ℝ) (n : ℕ) : FbmState :=
  (List.range n).foldl (fun st _ => fbmStep noise cfg x y z st) ⟨0, cfg.scale, 1, 0⟩

lemma fbm_eq_loop (noise : ℝ → ℝ → ℝ → ℝ) (cfg : ResolvedNoiseConfig) (x y z : ℝ) :
    fbm noise cfg x y z =
      (fbmLoop noise cfg x y z cfg.octaves).total /
        (fbmLoop noise cfg x y z cfg.octaves).maxValue := rfl

lemma fbmLoop_inv (noise : ℝ → ℝ → ℝ → ℝ) (cfg : ResolvedNoiseConfig) (x y z : ℝ)
    (hb : ∀ a b c, |noise a b c| ≤ 1) (hp : 0 < cfg.persistence) (n : ℕ) :
    |(fbmLoop noise cfg x y z n).total| ≤ (fbmLoop noise cfg x y z n).maxValue ∧
      0 < (fbmLoop noise cfg x y z n).amplitude ∧
      (1 ≤ n → 1 ≤ (fbmLoop noise cfg x y z n).maxValue) := by
  induction n with
  | zero =>
    refine ⟨?_, ?_, ?_⟩
    · simp [fbmLoop]
    · simp [fbmLoop]
    · intro h
      exact absurd h (by norm_num)
  | succ n ih =>
    obtain ⟨h1, h2, h3⟩ := ih
    have hstep : fbmLoop noise cfg x y z (n + 1) =
        fbmStep noise cfg x y z (fbmLoop noise cfg x y z n) := by
      unfold fbmLoop
      rw [List.range_succ, List.foldl_append, List.foldl_cons, List.foldl_nil]
    set st := fbmLoop noise cfg x y z n
    rw [hstep]
    unfold fbmStep
    dsimp only
    have hnv := hb (x * st.frequency) (y * st.frequency) (z * st.frequency)
    have habs : |st.total + noise (x * st.frequency) (y * st.frequency) (z * st.frequency)
        * st.amplitude| ≤ st.maxValue + st.amplitude := by
      calc |st.total + noise (x * st.frequency) (y * st.frequency) (z * st.frequency)
            * st.amplitude|
          ≤ |st.total| + |noise (x * st.frequency) (y * st.frequency) (z * st.frequency)
            * st.amplitude| := abs_add _ _
        _ ≤ st.maxValue + st.amplitude := by
            have : |noise (x * st.frequency) (y * st.frequency) (z * st.frequency)
                * st.amplitude| ≤ st.amplitude := by
              rw [abs_mul, abs_of_pos h2]
              nlinarith [abs_nonneg (noise (x * st.frequency) (y * st.frequency)
                (z * st.frequency))]
            linarith
    refine ⟨habs, mul_pos h2 hp, ?_⟩
    intro _
    rcases Nat.eq_zero_or_pos n with hn | hn
    · subst hn
      have : st = ⟨0, cfg.scale, 1, 0⟩ := by
        simp [st, fbmLoop]
      rw [this]
      norm_num
    · have := h3 hn
      linarith

lemma fbm_bounds (noise : ℝ → ℝ → ℝ → ℝ) (cfg : ResolvedNoiseConfig) (x y z : ℝ)
    (hb : ∀ a b c, |noise a b c| ≤ 1) (hp : 0 < cfg.persistence) (ho : 1 ≤ cfg.octaves) :
    |fbm noise cfg x y z| ≤ 1 := by
  obtain ⟨h1, _, h3⟩ := fbmLoop_inv noise cfg x y z hb hp cfg.octaves
  have hm := h3 ho
  rw [fbm_eq_loop]
  rw [abs_div]
  rw [abs_of_pos (by linarith : (0:ℝ) < (fbmLoop noise cfg x y z cfg.octaves).maxValue)]
  rw [div_le_one (by linarith)]
  linarith

/-- C7 (amended): on the noise-synthesizer path, if the base 3D noise
function returns values in [-1, 1] and the configuration is sane
(at least one octave, positive persistence, nonnegative redistribution
power — all presets and the defaults qualify), the elevation lies in
[0, 1]: the octave sum divided by the amplitude sum lies in [-1, 1], the
remap moves it to [0, 1] and the power preserves that range. -/
theorem c7_elevation_range (noise : ℝ → ℝ → ℝ → ℝ) (cfg : ResolvedNoiseConfig)
    (hb : ∀ a b c, |noise a b c| ≤ 1) (ho : 1 ≤ cfg.octaves)
    (hp : 0 < cfg.persistence) (hr : 0 ≤ cfg.redistributionPower) (lat lng radius : ℝ) :
    0 ≤ getElevationAtLatLng noise cfg lat lng radius ∧
      getElevationAtLatLng noise cfg lat lng radius ≤ 1 := by
  unfold getElevationAtLatLng
  dsimp only
  set p := latLngToSphere lat lng radius
  have hf : |fbm noise cfg p.1 p.2.1 p.2.2| ≤ 1 := fbm_bounds noise cfg _ _ _ hb hp ho
  rw [abs_le] at hf
  have hv0 : 0 ≤ (fbm noise cfg p.1 p.2.1 p.2.2 + 1) / 2 := by linarith
  have hv1 : (fbm noise cfg p.1 p.2.1 p.2.2 + 1) / 2 ≤ 1 := by linarith
  exact ⟨Real.rpow_nonneg hv0 _, Real.rpow_le_one hv0 hv1 hr⟩

/-- A noise function with range inside [-1, 1] used by the C7
counterexample. -/
def badNoise : ℝ → ℝ → ℝ → ℝ := fun _ _ z => if z = 2 then -1 else 1

/-- An adversarial but type-correct noise configuration: 3 octaves,
persistence -1, lacunarity 2, scale 1, redistribution power 2. -/
def badNoiseConfig : ResolvedNoiseConfig := ⟨"bad", 3, -1, 2, 1, 2⟩

/-- C7 (counterexample): with the configuration above and a base noise
function whose values all lie in [-1, 1], getElevationAtLatLng returns 4 at
the north pole: the alternating amplitudes make the octave sum 3 while the
amplitude sum is 1, so the normalized value escapes [-1, 1] and the claim
as stated fails. -/
theorem c7_range_refuted :
    (∀ a b c, |badNoise a b c| ≤ 1) ∧
      1 < getElevationAtLatLng badNoise badNoiseConfig 90 0 1 := by
  constructor
  · intro a b c
    unfold badNoise
    split_ifs <;> norm_num
  · have hsphere : latLngToSphere 90 0 1 = (0, 0, 1) := by
      unfold latLngToSphere
      norm_num
    have hval : fbm badNoise badNoiseConfig 0 0 1 = 3 := by
      unfold fbm fbmStep badNoise badNoiseConfig
      norm_num [List.range_succ]
    unfold getElevationAtLatLng
    rw [hsphere]
    dsimp only
    rw [hval]
    have h4 : ((3:ℝ) + 1) / 2 = 2 := by norm_num
    rw [h4]
    have : (2:ℝ) ^ (badNoiseConfig.redistributionPower) = 4 := by
      show (2:ℝ) ^ ((2:ℝ)) = 4
      rw [show ((2:ℝ)) = ((2:ℕ):ℝ) by norm_num, Real.rpow_natCast]
      norm_num
    rw [this]
    norm_num

lemma calcTemp_eq_rotating (params : WorldParameters) (lat lng elev day : ℝ)
    (h : params.rotationPeriod ≤ 1000) :
    calculateTemperature params lat lng elev day =
      rotatingRegimeTemperature params lat lng elev day := by
  unfold calculateTemperature rotatingRegimeTemperature
  dsimp only
  rw [if_neg (not_lt.2 h)]

lemma calcTemp_eq_locked (params : WorldParameters) (lat lng elev day : ℝ)
    (h : 1000 < params.rotationPeriod) :
    calculateTemperature params lat lng elev day =
      lockedRegimeTemperature params lat lng elev day := by
  unfold calculateTemperature lockedRegimeTemperature
  dsimp only
  rw [if_pos h]

/-- C4 (amended): the temperature computation selects the tidally-locked
regime exactly when rotationPeriod is strictly greater than 1000 hours;
at and below 1000 (in particular at both 999 and 1000) it uses the
rotating-regime formula. -/
theorem c4_regime_selection :
    (∀ (params : WorldParameters) (lat lng elev day : ℝ), params.rotationPeriod ≤ 1000 →
        calculateTemperature params lat lng elev day =
          rotatingRegimeTemperature params lat lng elev day) ∧
      ∀ (params : WorldParameters) (lat lng elev day : ℝ), 1000 < params.rotationPeriod →
        calculateTemperature params lat lng elev day =
          lockedRegimeTemperature params lat lng elev day :=
  ⟨calcTemp_eq_rotating, calcTemp_eq_locked⟩

/-- Planet parameters at the claimed threshold rotationPeriod = 1000. -/
def lockedThresholdParams : WorldParameters :=
  { earthParameters with rotationPeriod := 1000 }

lemma insolationToTemperature_lt {a b : ℝ} (ha : 0 ≤ a) (h : a < b) :
    insolationToTemperature a < insolationToTemperature b := by
  unfold insolationToTemperature
  dsimp only
  have h1 : a * (1 - 0.3) / (4 * 5.67e-8) < b * (1 - 0.3) / (4 * 5.67e-8) := by
    have hc : (0:ℝ) < 4 * 5.67e-8 := by norm_num
    apply div_lt_div_of_pos_right ?_ hc
    nlinarith
  have h0 : (0:ℝ) ≤ a * (1 - 0.3) / (4 * 5.67e-8) := by positivity
  have := Real.rpow_lt_rpow h0 h1 (by norm_num : (0:ℝ) < 0.25)
  linarith

lemma rotatingRegime_at_threshold :
    rotatingRegimeTemperature lockedThresholdParams 0 180 5000 0 =
      insolationToTemperature 1361 +
        -(6.5) * ((5000 - lockedThresholdParams.seaLevel) / 1000) +
        lockedThresholdParams.atmosphereDensity * 15 := by
  unfold rotatingRegimeTemperature
  have ht : lockedThresholdParams.timeOfDay = some 12 := rfl
  have hsc : lockedThresholdParams.solarConstant = 1361 := rfl
  rw [ht, hsc]
  norm_num [timeOfDayOrNoon, Real.arcsin_one, Real.sin_pi_div_two]

lemma lockedRegime_at_threshold :
    lockedRegimeTemperature lockedThresholdParams 0 180 5000 0 =
      insolationToTemperature 5 +
        -(6.5) * ((5000 - lockedThresholdParams.seaLevel) / 1000) +
        lockedThresholdParams.atmosphereDensity * 15 := by
  unfold lockedRegimeTemperature
  have hsc : lockedThresholdParams.solarConstant = 1361 := rfl
  have had : lockedThresholdParams.atmosphereDensity = 1 := rfl
  rw [hsc]
  norm_num [had, Real.cos_pi, mul_div_assoc]

/-- C4 (counterexample): at rotationPeriod = 1000 the code takes the
rotating branch (the source tests rotationPeriod > 1000), and at the
sub-stellar antipode (latitude 0, longitude 180, local noon, day 0) the
two regimes give different temperatures (insolation 1361 versus the
ambient floor 5), so the claim that 1000 uses the locked formula is false. -/
theorem c4_threshold_refuted :
    calculateTemperature lockedThresholdParams 0 180 5000 0 ≠
      lockedRegimeTemperature lockedThresholdParams 0 180 5000 0 := by
  rw [calcTemp_eq_rotating _ _ _ _ _ (by norm_num [lockedThresholdParams, earthParameters])]
  rw [rotatingRegime_at_threshold, lockedRegime_at_threshold]
  have := insolationToTemperature_lt (by norm_num : (0:ℝ) ≤ 5) (by norm_num : (5:ℝ) < 1361)
  intro hcontra
  have heq : insolationToTemperature 1361 = insolationToTemperature 5 := by linarith
  linarith

/-- Parameters just above the threshold. -/
def slowRotationParams : WorldParameters :=
  { earthParameters with rotationPeriod := 1001 }

/-- C4 (witness): the regime-selection theorem applied at concrete
parameters on both sides of the threshold. -/
theorem c4_witness :
    lockedThresholdParams.rotationPeriod ≤ 1000 ∧
      calculateTemperature lockedThresholdParams 10 20 3000 5 =
        rotatingRegimeTemperature lockedThresholdParams 10 20 3000 5 ∧
      1000 < slowRotationParams.rotationPeriod ∧
      calculateTemperature slowRotationParams 10 20 3000 5 =
        lockedRegimeTemperature slowRotationParams 10 20 3000 5 :=
  ⟨by norm_num [lockedThresholdParams, earthParameters],
    c4_regime_selection.1 lockedThresholdParams 10 20 3000 5
      (by norm_num [lockedThresholdParams, earthParameters]),
    by norm_num [slowRotationParams, earthParameters],
    c4_regime_selection.2 slowRotationParams 10 20 3000 5
      (by norm_num [slowRotationParams, earthParameters])⟩

/-- C6: with an explicit (non-empty) seed in the noise configuration, two
world-generation runs that differ only in the ambient Math.random value
produce identical cell collections — for both elevation paths (noise
synthesizer or external heightmap), all parameters, and any grid.  The
ambient randomness is consulted only when no seed is configured. -/
theorem c6_determinism (lib : ℝ → ℝ → ℝ → ℝ → ℝ) (cfg : NoiseConfig)
    (params : WorldParameters) (hm : Option HeightMapData) (cells : List GridCell)
    (s amb1 amb2 : String) (hseed : cfg.seed = some s) (hne : s ≠ "") :
    runWorldGeneration lib cfg amb1 params hm cells =
      runWorldGeneration lib cfg amb2 params hm cells := by
  unfold runWorldGeneration
  have hres : resolveNoiseConfig cfg amb1 = resolveNoiseConfig cfg amb2 := by
    unfold resolveNoiseConfig
    rw [hseed]
    simp [if_neg hne]
  rw [hres]

/-- The Earth-like preset noise configuration with an explicit seed. -/
def seededNoiseConfig : NoiseConfig :=
  ⟨some "earth-seed", some 6, some 0.5, some 2, some 1, some 2⟩

/-- C6 (witness): the determinism theorem applied at a concrete seeded
configuration and two different ambient random values. -/
theorem c6_witness :
    seededNoiseConfig.seed = some "earth-seed" ∧ "earth-seed" ≠ "" ∧
      runWorldGeneration (fun _ _ _ _ => 0) seededNoiseConfig "0.123" earthParameters none
          [⟨"a", 0, 0⟩] =
        runWorldGeneration (fun _ _ _ _ => 0) seededNoiseConfig "0.456" earthParameters none
          [⟨"a", 0, 0⟩] :=
  ⟨rfl, by decide,
    c6_determinism (fun _ _ _ _ => 0) seededNoiseConfig earthParameters none [⟨"a", 0, 0⟩]
      "earth-seed" "0.123" "0.456" rfl (by decide)⟩

lemma builtCellIds_card_le (f : ℝ → ℝ → Fin h3Res4CellCount) :
    (builtCellIds 4 f).card ≤ 12800 := by
  unfold builtCellIds
  calc ((Finset.range (latSteps 4) ×ˢ Finset.range (lngSteps 4)).image
        (fun p => f (sampleLat 4 p.1) (sampleLng 4 p.2))).card
      ≤ (Finset.range (latSteps 4) ×ˢ Finset.range (lngSteps 4)).card :=
        Finset.card_image_le
    _ = latSteps 4 * lngSteps 4 := by
        rw [Finset.card_product, Finset.card_range, Finset.card_range]
    _ ≤ 12800 := by norm_num [latSteps, lngSteps]

lemma builtCellIds_miss (f : ℝ → ℝ → Fin h3Res4CellCount) (hc : H3Covers f) :
    ∃ lat lng, -90 ≤ lat ∧ lat ≤ 90 ∧ -180 ≤ lng ∧ lng < 180 ∧
      f lat lng ∉ builtCellIds 4 f := by
  have hcard := builtCellIds_card_le f
  obtain ⟨c, hcm⟩ : ∃ c, c ∉ builtCellIds 4 f := by
    by_contra hall
    push_neg at hall
    have huniv : builtCellIds 4 f = Finset.univ := Finset.eq_univ_iff_forall.2 hall
    rw [huniv, Finset.card_univ, Fintype.card_fin] at hcard
    norm_num [h3Res4CellCount] at hcard
  obtain ⟨lat, lng, h1, h2, h3, h4, h5⟩ := hc c
  exact ⟨lat, lng, h1, h2, h3, h4, by rw [h5]; exact hcm⟩

/-- C3 (amended): for any function implementing the h3 resolution-4
interface, lookups at the sampled lattice coordinates always land in the
built cell set, but because the build samples only 80 x 160 = 12800 lattice
points while the resolution has 288122 reachable cells, some legal
coordinate maps to a cell id that the build never produced — a cellAt miss. -/
theorem c3_lattice_hits_and_misses (f : ℝ → ℝ → Fin h3Res4CellCount)
    (hc : H3Covers f) :
    (∀ i j, i < latSteps 4 → j < lngSteps 4 →
        f (sampleLat 4 i) (sampleLng 4 j) ∈ builtCellIds 4 f) ∧
      ∃ lat lng, -90 ≤ lat ∧ lat ≤ 90 ∧ -180 ≤ lng ∧ lng < 180 ∧
        f lat lng ∉ builtCellIds 4 f := by
  constructor
  · intro i j hi hj
    unfold builtCellIds
    exact Finset.mem_image.2 ⟨(i, j),
      Finset.mem_product.2 ⟨Finset.mem_range.2 hi, Finset.mem_range.2 hj⟩, rfl⟩
  · exact builtCellIds_miss f hc

/-- A concrete function satisfying the h3 resolution-4 interface model
(longitude-interval binning), witnessing that the interface is inhabited. -/
def sampleLatLngToCell : ℝ → ℝ → Fin h3Res4CellCount := fun _ lng =>
  ⟨(⌊(lng + 180) / 360 * (h3Res4CellCount : ℝ)⌋).toNat % h3Res4CellCount,
    Nat.mod_lt _ (by norm_num [h3Res4CellCount])⟩

lemma sampleLatLngToCell_covers : H3Covers sampleLatLngToCell := by
  intro c
  have hNpos : (0:ℝ) < (h3Res4CellCount : ℝ) := by norm_num [h3Res4CellCount]
  have hlt : ((c : ℕ) : ℝ) < (h3Res4CellCount : ℝ) := by
    exact_mod_cast c.isLt
  have hge : (0:ℝ) ≤ ((c : ℕ) : ℝ) := by positivity
  refine ⟨0, -180 + (((c : ℕ) : ℝ) + 1 / 2) * (360 / (h3Res4CellCount : ℝ)),
    by norm_num, by norm_num, ?_, ?_, ?_⟩
  · have : (0:ℝ) ≤ (((c : ℕ) : ℝ) + 1 / 2) * (360 / (h3Res4CellCount : ℝ)) := by positivity
    linarith
  · have hsucc : ((c : ℕ) : ℝ) + 1 ≤ (h3Res4CellCount : ℝ) := by
      exact_mod_cast c.isLt
    have h360 : (((c : ℕ) : ℝ) + 1 / 2) * (360 / (h3Res4CellCount : ℝ)) < 360 := by
      rw [mul_div_assoc']
      rw [div_lt_iff₀ hNpos]
      nlinarith
    linarith
  · have harg : (-180 + (((c : ℕ) : ℝ) + 1 / 2) * (360 / (h3Res4CellCount : ℝ)) + 180)
        / 360 * (h3Res4CellCount : ℝ) = ((c : ℕ) : ℝ) + 1 / 2 := by
      field_simp
      ring
    have hfloor : ⌊((c : ℕ) : ℝ) + 1 / 2⌋ = ((c : ℕ) : ℤ) := by
      rw [Int.floor_eq_iff]
      constructor
      · push_cast
        linarith
      · push_cast
        linarith
    have hval : (⌊(-180 + (((c : ℕ) : ℝ) + 1 / 2) * (360 / (h3Res4CellCount : ℝ)) + 180)
        / 360 * (h3Res4CellCount : ℝ)⌋).toNat % h3Res4CellCount = (c : ℕ) := by
      rw [harg, hfloor]
      simp [Nat.mod_eq_of_lt c.isLt]
    exact Fin.ext hval

/-- C3 (counterexample): the claim as stated — every legal coordinate's
cell id is among the ids produced at grid build time, for every function
implementing the h3 resolution-4 interface — is false. -/
theorem c3_coverage_refuted : ¬ gridCoverageClaim := by
  intro h
  obtain ⟨lat, lng, h1, h2, h3, h4, h5⟩ :=
    builtCellIds_miss sampleLatLngToCell sampleLatLngToCell_covers
  exact h5 (h sampleLatLngToCell sampleLatLngToCell_covers lat lng h1 h2 h3 h4)

/-- C3 (witness): the amended theorem applied to the concrete interface
model: the first lattice point hits the built set, and a miss exists. -/
theorem c3_witness :
    sampleLatLngToCell (sampleLat 4 0) (sampleLng 4 0) ∈ builtCellIds 4 sampleLatLngToCell ∧
      ∃ lat lng, -90 ≤ lat ∧ lat ≤ 90 ∧ -180 ≤ lng ∧ lng < 180 ∧
        sampleLatLngToCell lat lng ∉ builtCellIds 4 sampleLatLngToCell :=
  ⟨(c3_lattice_hits_and_misses sampleLatLngToCell sampleLatLngToCell_covers).1 0 0
      (by norm_num [latSteps]) (by norm_num [lngSteps]),
    (c3_lattice_hits_and_misses sampleLatLngToCell sampleLatLngToCell_covers).2⟩

lemma haversineDistance_self (params : WorldParameters) (lat lng : ℝ) :
    haversineDistance params lat lng lat lng = 0 := by
  unfold haversineDistance jsAtan2
  norm_num

/-- Grid cell at the origin, flagged ocean by the sampler below. -/
def cellA : GridCell := ⟨"a", 0, 0⟩

/-- Grid cell one degree east, flagged land by the sampler below. -/
def cellB : GridCell := ⟨"b", 0, 1⟩

/-- A concrete elevation sampler: ocean (0) on the prime meridian, land (1)
elsewhere. -/
def oceanLandElev : ℝ → ℝ → ℝ := fun _ lng => if lng = 0 then 0 else 1

/-- The record the first pass builds for cellA (processed first). -/
def recordA : CellData :=
  buildCellRecord earthParameters oceanLandElev [cellA, cellB] [] cellA

/-- The worldCells map state right before cellB is processed. -/
def worldAfterA : List CellData := worldSet [] recordA

lemma worldAfterA_eq : worldAfterA = [recordA] := by
  simp [worldAfterA, worldSet]

lemma recordA_cellId : recordA.cellId = "a" := rfl

lemma recordA_isOcean : recordA.isOcean = true := by
  show decide (oceanLandElev cellA.latitude cellA.longitude < earthParameters.seaLevel) = true
  simp only [oceanLandElev, cellA, earthParameters]
  norm_num

lemma haversine_B_A :
    haversineDistance earthParameters 0 1 0 0 = 6371 * (Real.pi / 180) := by
  unfold haversineDistance jsAtan2
  dsimp only
  have hpi := Real.pi_pos
  set t := Real.pi / 360 with ht
  have ht0 : 0 ≤ t := by positivity
  have htlt : t < Real.pi / 2 := by
    rw [ht]
    nlinarith
  have htpi : t ≤ Real.pi := by
    rw [ht]
    nlinarith
  have hs0 : 0 ≤ Real.sin t := Real.sin_nonneg_of_nonneg_of_le_pi ht0 htpi
  have hcpos : 0 < Real.cos t := Real.cos_pos_of_mem_Ioo ⟨by linarith, htlt⟩
  have ha : Real.sin (((0:ℝ) - 0) * Real.pi / 180 / 2) * Real.sin (((0:ℝ) - 0) * Real.pi / 180 / 2) +
      Real.cos ((0:ℝ) * Real.pi / 180) * Real.cos ((0:ℝ) * Real.pi / 180) *
        Real.sin (((0:ℝ) - 1) * Real.pi / 180 / 2) * Real.sin (((0:ℝ) - 1) * Real.pi / 180 / 2) =
      Real.sin t * Real.sin t := by
    have h1 : ((0:ℝ) - 0) * Real.pi / 180 / 2 = 0 := by ring
    have h2 : (0:ℝ) * Real.pi / 180 = 0 := by ring
    have h3 : ((0:ℝ) - 1) * Real.pi / 180 / 2 = -t := by
      rw [ht]
      ring
    rw [h1, h2, h3, Real.sin_zero, Real.cos_zero, Real.sin_neg]
    ring
  rw [ha]
  have hs : Real.sqrt (Real.sin t * Real.sin t) = Real.sin t := Real.sqrt_mul_self hs0
  have hc : Real.sqrt (1 - Real.sin t * Real.sin t) = Real.cos t := by
    have hid : 1 - Real.sin t * Real.sin t = Real.cos t * Real.cos t := by
      have := Real.sin_sq_add_cos_sq t
      nlinarith
    rw [hid, Real.sqrt_mul_self (le_of_lt hcpos)]
  rw [hs, hc, if_pos hcpos, ← Real.tan_eq_sin_div_cos,
    Real.arctan_tan (by linarith) htlt]
  have hrad : earthParameters.radius = 6371000 := rfl
  rw [hrad, ht]
  ring

lemma haversine_B_A_lt : haversineDistance earthParameters 0 1 0 0 < 500 := by
  rw [haversine_B_A]
  have h4 := Real.pi_lt_four
  nlinarith

/-- C1: the first pass never finds an ocean cell for a land cell.  The
record of the current cell is inserted into this.worldCells only after
estimateDistanceToOcean has run, so the lookup of the queried cell itself
fails and the function returns the 1000 fallback before scanning anything.
Concretely: cellA (ocean) has already been processed and lies about 111 km
(well inside the 500 km radius) from the land cell cellB, the distance the
specification prescribes, yet the distance the code computes for cellB is
the fallback 1000. -/
theorem c1_distance_fallback :
    recordA.isOcean = true ∧
      ¬ oceanLandElev cellB.latitude cellB.longitude < earthParameters.seaLevel ∧
      firstPass earthParameters oceanLandElev [cellA, cellB] =
        worldSet worldAfterA
          (buildCellRecord earthParameters oceanLandElev [cellA, cellB] worldAfterA cellB) ∧
      estimateDistanceToOcean earthParameters worldAfterA cellB.cellId [cellA, cellB] = 1000 ∧
      specDistanceToOcean earthParameters worldAfterA cellB [cellA, cellB] =
        haversineDistance earthParameters 0 1 0 0 ∧
      specDistanceToOcean earthParameters worldAfterA cellB [cellA, cellB] < 500 := by
  have hBland : ¬ oceanLandElev cellB.latitude cellB.longitude < earthParameters.seaLevel := by
    simp only [oceanLandElev, cellB, earthParameters]
    norm_num
  have hget_b : worldGet worldAfterA cellB.cellId = none := by
    rw [worldAfterA_eq]
    simp [worldGet, recordA_cellId, cellB]
  have hget_a : worldGet worldAfterA cellA.cellId = some recordA := by
    rw [worldAfterA_eq]
    simp [worldGet, recordA_cellId, cellA]
  have h500 : haversineDistance earthParameters 0 1 0 0 < 5 * 100 := by
    norm_num
    exact haversine_B_A_lt
  have hspec : specDistanceToOcean earthParameters worldAfterA cellB [cellA, cellB] =
      haversineDistance earthParameters 0 1 0 0 := by
    unfold specDistanceToOcean
    rw [List.foldl_cons, List.foldl_cons, List.foldl_nil]
    dsimp only
    rw [show cellB.latitude = (0:ℝ) from rfl, show cellB.longitude = (1:ℝ) from rfl,
      show cellA.latitude = (0:ℝ) from rfl, show cellA.longitude = (0:ℝ) from rfl]
    rw [haversineDistance_self earthParameters 0 1,
      if_pos (by norm_num : (0:ℝ) < 5 * 100), hget_b]
    dsimp only
    rw [if_pos h500, hget_a]
    dsimp only
    rw [recordA_isOcean]
    simp
  refine ⟨recordA_isOcean, hBland, rfl, ?_, hspec, ?_⟩
  · unfold estimateDistanceToOcean
    rw [hget_b]
  · rw [hspec]
    exact haversine_B_A_lt

set_option maxHeartbeats 1000000 in
lemma classifyBiome_not_ocean {seaLevel t p elev : ℝ} (h : ¬ elev < seaLevel) :
    classifyBiome seaLevel t p elev ≠ BiomeType.OCEAN := by
  unfold classifyBiome
  rw [if_neg h]
  split_ifs <;> decide

/-- The record the pipeline builds for a cell of elevation 0.3 under the
default sea level 0.5. -/
def mismatchRecord : CellData :=
  buildCellRecord earthParameters (fun _ _ => 0.3) [cellA] [] cellA

/-- C2: the biome label does not agree with the ocean flag.  generateWorld
flags a cell with elevation 0.3 < seaLevel = 0.5 as ocean, but hands the
classifier the elevation scaled to meters (3000) while the classifier
compares it with the normalized sea level 0.5, so the cell's biome is not
Ocean although isOcean is true. -/
theorem c2_biome_ocean_mismatch :
    firstPass earthParameters (fun _ _ => 0.3) [cellA] = [mismatchRecord] ∧
      mismatchRecord.isOcean = true ∧
      mismatchRecord.biome ≠ BiomeType.OCEAN := by
  refine ⟨?_, ?_, ?_⟩
  · simp [firstPass, worldSet, mismatchRecord]
  · show decide ((0.3:ℝ) < earthParameters.seaLevel) = true
    simp only [earthParameters]
    norm_num
  · show classifyBiome earthParameters.seaLevel _ _ ((0.3:ℝ) * 10000) ≠ BiomeType.OCEAN
    apply classifyBiome_not_ocean
    simp only [earthParameters]
    norm_num

lemma secondPassStep_length (params : WorldParameters) (allCells : List GridCell)
    (w : List CellData) (g : GridCell) :
    (secondPassStep params allCells w g).length = w.length := by
  unfold secondPassStep
  split
  · rfl
  · exact List.length_map _ _

lemma secondPass_length (params : WorldParameters) (allCells : List GridCell) :
    ∀ (l : List GridCell) (w0 : List CellData),
      (l.foldl (secondPassStep params allCells) w0).length = w0.length := by
  intro l
  induction l with
  | nil => intro w0; rfl
  | cons g l ih =>
    intro w0
    rw [List.foldl_cons, ih, secondPassStep_length]

lemma foldl_worldSet_length (params : WorldParameters) (elevAt : ℝ → ℝ → ℝ)
    (cells : List GridCell) :
    ∀ (l : List GridCell) (w : List CellData),
      (l.map GridCell.cellId).Nodup →
      (∀ g ∈ l, ∀ e ∈ w, e.cellId ≠ g.cellId) →
      (l.foldl (fun w g => worldSet w (buildCellRecord params elevAt cells w g)) w).length
        = w.length + l.length := by
  intro l
  induction l with
  | nil => intro w _ _; simp
  | cons g l ih =>
    intro w hnodup hfresh
    rw [List.foldl_cons]
    have hany : (w.any fun e =>
        e.cellId == (buildCellRecord params elevAt cells w g).cellId) = false := by
      rw [List.any_eq_false]
      intro e he
      have : e.cellId ≠ g.cellId := hfresh g (List.mem_cons_self g l) e he
      simpa using this
    have hset : worldSet w (buildCellRecord params elevAt cells w g)
        = w ++ [buildCellRecord params elevAt cells w g] := by
      unfold worldSet
      rw [hany]
      simp
    rw [hset]
    rw [List.map_cons, List.nodup_cons] at hnodup
    have hres := ih (w ++ [buildCellRecord params elevAt cells w g]) hnodup.2 ?_
    · rw [hres]
      simp only [List.length_append, List.length_cons, List.length_nil]
      omega
    · intro g' hg' e he
      rcases List.mem_append.1 he with hw | hr
      · exact hfresh g' (List.mem_cons_of_mem g hg') e hw
      · rw [List.mem_singleton.1 hr]
        show g.cellId ≠ g'.cellId
        intro heq
        exact hnodup.1 (heq ▸ List.mem_map.2 ⟨g', hg', rfl⟩)

lemma firstPass_length (params : WorldParameters) (elevAt : ℝ → ℝ → ℝ)
    (cells : List GridCell) (h : (cells.map GridCell.cellId).Nodup) :
    (firstPass params elevAt cells).length = cells.length := by
  unfold firstPass
  rw [foldl_worldSet_length params elevAt cells cells [] h (by simp)]
  simp

lemma generateWorldCells_length (params : WorldParameters) (elevAt : ℝ → ℝ → ℝ)
    (cells : List GridCell) (h : (cells.map GridCell.cellId).Nodup) :
    (generateWorldCells params elevAt cells).length = cells.length := by
  unfold generateWorldCells secondPass
  rw [secondPass_length, firstPass_length params elevAt cells h]

/-- C5 (amended): a generation request never fails on account of the
heightmap — the only failure in the whole request is the grid resolution
check.  For every in-range resolution and every elevation source, the
request succeeds and produces exactly one record per grid cell. -/
theorem c5_generation_total (resolution : ℕ) (hres : resolution ≤ 15)
    (params : WorldParameters) (elevAt : ℝ → ℝ → ℝ) (cells : List GridCell)
    (hnodup : (cells.map GridCell.cellId).Nodup) :
    runGeneration resolution params elevAt cells =
        Except.ok (generateWorldCells params elevAt cells) ∧
      (generateWorldCells params elevAt cells).length = cells.length := by
  constructor
  · unfold runGeneration
    rw [if_neg (by omega)]
  · exact generateWorldCells_length params elevAt cells hnodup

/-- An external heightmap with mismatched data length: 3 x 2 pixels
declared, one sample supplied. -/
def badHeightMap : HeightMapData := ⟨3, 2, [0.25], 0, 1⟩

/-- C5 (counterexample): with the malformed heightmap above (data length 1
against declared 3 x 2) the generation request does not fail: the per-cell
sample is undefined (none) — no validation and no error — and the run
completes, producing a full world of one record for a one-cell grid. -/
theorem c5_no_validation_refuted :
    badHeightMap.width * badHeightMap.height ≠ (badHeightMap.data.length : ℤ) ∧
      loadFromHeightMap badHeightMap 0 0 = none ∧
      runGeneration 4 earthParameters (loadFromHeightMapValue badHeightMap) [cellA] =
        Except.ok (generateWorldCells earthParameters
          (loadFromHeightMapValue badHeightMap) [cellA]) ∧
      (generateWorldCells earthParameters (loadFromHeightMapValue badHeightMap) [cellA]).length
        = 1 := by
  refine ⟨by norm_num [badHeightMap], ?_, ?_, ?_⟩
  · unfold loadFromHeightMap badHeightMap jsIntMod
    norm_num
  · unfold runGeneration
    rw [if_neg (by norm_num)]
  · rw [generateWorldCells_length earthParameters _ [cellA] (by simp)]
    rfl

/-- C5 (witness): the amended theorem applied at resolution 4 with a
one-cell grid. -/
theorem c5_witness :
    (4:ℕ) ≤ 15 ∧ (([cellA].map GridCell.cellId).Nodup) ∧
      runGeneration 4 earthParameters (fun _ _ => 0) [cellA] =
        Except.ok (generateWorldCells earthParameters (fun _ _ => 0) [cellA]) ∧
      (generateWorldCells earthParameters (fun _ _ => 0) [cellA]).length = [cellA].length :=
  ⟨by norm_num, by simp,
    (c5_generation_total 4 (by norm_num) earthParameters (fun _ _ => 0) [cellA] (by simp)).1,
    (c5_generation_total 4 (by norm_num) earthParameters (fun _ _ => 0) [cellA] (by simp)).2⟩

/-- The first-pass record of a one-cell world with constant elevation 0. -/
def sampleRecord : CellData :=
  buildCellRecord earthParameters (fun _ _ => 0) [cellA] [] cellA

/-- The same record after the wind pass: the single cell has no neighbor
within range, so it receives the default wind (5 m/s toward 90 degrees). -/
def sampleFinal : CellData :=
  { sampleRecord with windSpeed := 5, windDirection := 90 }

/-- A complete one-cell generated world. -/
def sampleWorld : List CellData :=
  generateWorldCells earthParameters (fun _ _ => 0) [cellA]

lemma sampleRecord_cellId : sampleRecord.cellId = "a" := rfl

lemma sampleFirstPass :
    firstPass earthParameters (fun _ _ => 0) [cellA] = [sampleRecord] := by
  simp [firstPass, worldSet, sampleRecord]

lemma sampleWind_eq :
    calculateWind earthParameters [sampleRecord] cellA.latitude cellA.longitude
      sampleRecord.temperature sampleRecord.elevation [cellA] = (5, 90) := by
  unfold calculateWind
  have hd : haversineDistance earthParameters cellA.latitude cellA.longitude
      cellA.latitude cellA.longitude = 0 := haversineDistance_self _ _ _
  have hcond : (decide (0 < haversineDistance earthParameters cellA.latitude cellA.longitude
      cellA.latitude cellA.longitude ∧ haversineDistance earthParameters cellA.latitude
      cellA.longitude cellA.latitude cellA.longitude < 500)) = false := by
    rw [decide_eq_false_iff_not, hd]
    norm_num
  have hfilter : ([cellA].filter (fun other =>
      decide (0 < haversineDistance earthParameters cellA.latitude cellA.longitude
          other.latitude other.longitude ∧
        haversineDistance earthParameters cellA.latitude cellA.longitude
          other.latitude other.longitude < 500))) = [] := by
    rw [List.filter_cons, hcond]
    simp
  rw [hfilter]
  simp

lemma sampleWorld_eq : sampleWorld = [sampleFinal] := by
  unfold sampleWorld generateWorldCells
  rw [sampleFirstPass]
  unfold secondPass
  rw [List.foldl_cons, List.foldl_nil]
  unfold secondPassStep
  have hget : worldGet [sampleRecord] cellA.cellId = some sampleRecord := by
    simp [worldGet, sampleRecord_cellId, cellA]
  rw [hget]
  dsimp only
  rw [sampleWind_eq]
  simp [sampleRecord_cellId, cellA, sampleFinal]

lemma sampleFinal_mem :
    sampleFinal ∈ generateWorldCells earthParameters (fun _ _ => 0) [cellA] := by
  rw [show generateWorldCells earthParameters (fun _ _ => 0) [cellA] = [sampleFinal]
    from sampleWorld_eq]
  exact List.mem_singleton.2 rfl

/-- C9 (witness): the wind-bound theorem applied to the single cell of the
concrete one-cell world, whose wind is the default (5, 90). -/
theorem c9_witness :
    sampleFinal ∈ generateWorldCells earthParameters (fun _ _ => 0) [cellA] ∧
      (1 ≤ sampleFinal.windSpeed ∧ sampleFinal.windSpeed ≤ 50 ∧
        0 ≤ sampleFinal.windDirection ∧ sampleFinal.windDirection < 360) :=
  ⟨sampleFinal_mem,
    c9_wind_bounds earthParameters (fun _ _ => 0) [cellA] sampleFinal sampleFinal_mem⟩

/-- C10 (witness): the statistics theorem applied to the concrete nonempty
one-cell world. -/
theorem c10_witness :
    sampleWorld ≠ [] ∧
      (getStatistics sampleWorld).landCells + (getStatistics sampleWorld).oceanCells
        = (getStatistics sampleWorld).totalCells ∧
      (getStatistics sampleWorld).averageTemperature
        = (sampleWorld.map CellData.temperature).sum / (sampleWorld.length : ℝ) ∧
      (getStatistics sampleWorld).averagePrecipitation
        = (sampleWorld.map CellData.precipitation).sum / (sampleWorld.length : ℝ) := by
  have hne : sampleWorld ≠ [] := by
    rw [sampleWorld_eq]
    simp
  have h := c10_statistics_consistent earthParameters (fun _ _ => 0) [cellA]
  exact ⟨hne, h.1, (h.2.2.2 hne).1, (h.2.2.2 hne).2⟩

/-- C8 (witness): the precipitation theorem applied at concrete inputs and
at the concrete cell of the one-cell world. -/
theorem c8_witness :
    (0:ℝ) ≤ 0 ∧
      (calculatePrecipitation earthParameters 0 0 0 0 =
          baseRainfall 0 + orographicLift earthParameters 0 +
            temperatureMoistureEffect 0 + oceanProximityEffect 0 ∧
        0 ≤ calculatePrecipitation earthParameters 0 0 0 0) ∧
      0 ≤ sampleFinal.precipitation :=
  ⟨le_refl 0, c8_precipitation_formula.1 earthParameters 0 0 0 0 (le_refl 0),
    c8_precipitation_formula.2 earthParameters (fun _ _ => 0) [cellA] sampleFinal
      sampleFinal_mem⟩

/-- The constant-zero noise function used by the C7 witness. -/
def zeroNoise : ℝ → ℝ → ℝ → ℝ := fun _ _ _ => 0

/-- The defaulted noise configuration of the HeightMapGenerator
constructor. -/
def defaultNoiseConfig : ResolvedNoiseConfig := ⟨"default", 6, 0.5, 2, 1, 2⟩

/-- C7 (witness): the elevation-range theorem applied to the constant-zero
noise function under the default configuration. -/
theorem c7_witness :
    (∀ a b c, |zeroNoise a b c| ≤ 1) ∧ 1 ≤ defaultNoiseConfig.octaves ∧
      0 < defaultNoiseConfig.persistence ∧ 0 ≤ defaultNoiseConfig.redistributionPower ∧
      (0 ≤ getElevationAtLatLng zeroNoise defaultNoiseConfig 0 0 1 ∧
        getElevationAtLatLng zeroNoise defaultNoiseConfig 0 0 1 ≤ 1) := by
  have hb : ∀ a b c, |zeroNoise a b c| ≤ 1 := by
    intro a b c
    simp [zeroNoise]
  refine ⟨hb, by norm_num [defaultNoiseConfig], by norm_num [defaultNoiseConfig],
    by norm_num [defaultNoiseConfig], ?_⟩
  exact c7_elevation_range zeroNoise defaultNoiseConfig hb
    (by norm_num [defaultNoiseConfig]) (by norm_num [defaultNoiseConfig])
    (by norm_num [defaultNoiseConfig]) 0 0 1
